import Mathlib

/-!
Verification of the BMC banking multi-agent support system
(`agents/multi_agent_system.py`, `database/bmc_database.py`,
`evaluation/model_evaluator.py`).

The Python code is shallowly embedded: each agent method becomes a Lean
function over explicit state, external effects (the OpenAI completion call,
the random ticket-number draw, the sqlite insert outcome) become oracle
parameters, and the sqlite store becomes a pair of lists (tickets, logs).
All definitions are executable; theorems about them follow at the end.
-/

namespace BMC

/-! ### Python string primitives

The fragment of Python string semantics the code uses: `str.upper`,
`str.lower`, `str.strip`, f-string rendering of `None`, whitespace split
(only its length is consumed), and substring containment (`in`).  Case
mapping is modelled on the ASCII range, which covers every constant the
program compares against. -/

def pyUpperChar (c : Char) : Char :=
  if 'a' ≤ c ∧ c ≤ 'z' then Char.ofNat (c.toNat - 32) else c

def pyLowerChar (c : Char) : Char :=
  if 'A' ≤ c ∧ c ≤ 'Z' then Char.ofNat (c.toNat + 32) else c

/-- Python s.upper(). -/
def pyUpper (s : String) : String := ⟨s.data.map pyUpperChar⟩

/-- Python s.lower(). -/
def pyLower (s : String) : String := ⟨s.data.map pyLowerChar⟩

/-- The ASCII whitespace characters recognised by `str.strip` / `str.split`. -/
def isSpaceChar (c : Char) : Bool :=
  c == ' ' || c == '\t' || c == '\n' || c == '\r' || c == '\x0b' || c == '\x0c'

/-- Remove the maximal trailing run of whitespace. -/
def dropTrailing : List Char → List Char
  | [] => []
  | c :: rest =>
    let r := dropTrailing rest
    if r.isEmpty then (if isSpaceChar c then [] else [c]) else c :: r

/-- Python s.strip(). -/
def pyStrip (s : String) : String := ⟨dropTrailing (s.data.dropWhile isSpaceChar)⟩

/-- Python len(s.split()): the number of maximal non-whitespace runs.  The flag
records whether the previous character belonged to a word. -/
def wordCountAux : List Char → Bool → Nat
  | [], _ => 0
  | c :: rest, inWord =>
    if isSpaceChar c then wordCountAux rest false
    else (if inWord then 0 else 1) + wordCountAux rest true

def wordCount (s : String) : Nat := wordCountAux s.data false

/-- Tests that `pat` starts `s` (character-wise). -/
def startsWithL : List Char → List Char → Bool
  | [], _ => true
  | _ :: _, [] => false
  | a :: as, b :: bs => a == b && startsWithL as bs

/-- Python `pat in s`: substring containment. -/
def hasSubstr (pat : List Char) : List Char → Bool
  | [] => pat.isEmpty
  | c :: rest => startsWithL pat (c :: rest) || hasSubstr pat rest

/-- f-string rendering of an optional string: Python prints `None` for the
null value and the string itself otherwise. -/
def pyStrOf : Option String → String
  | some s => s
  | none => "None"

/-! ### The ticket regular expression

Both `ClassifierAgent.process` and `QueryHandlerAgent.process` run
the search for pattern (INC|REQ|CRQ|PBI|RLM) plus ten digits over the
upper-cased input.  Function re.search
returns the leftmost match; the alternation offers five three-letter type
codes and `\d{10}` consumes exactly ten ASCII digits, with no anchor after
them (text may continue with further digits). -/

def isDigitChar (c : Char) : Bool := '0' ≤ c && c ≤ '9'

def ticketTypeCodes : List (List Char) :=
  [['I', 'N', 'C'], ['R', 'E', 'Q'], ['C', 'R', 'Q'], ['P', 'B', 'I'], ['R', 'L', 'M']]

/-- Attempt the pattern at the head of `s`: a type code followed immediately
by ten digits.  On success the matched thirteen characters (`group(0)`). -/
def ticketMatchAt (s : List Char) : Option (List Char) :=
  if ticketTypeCodes.contains (s.take 3) && decide (13 ≤ s.length)
      && ((s.drop 3).take 10).all isDigitChar
  then some (s.take 13) else none

/-- Embeds re.search for the ticket pattern: try every position left to right. -/
def reSearchTicket : List Char → Option (List Char)
  | [] => none
  | c :: rest =>
    match ticketMatchAt (c :: rest) with
    | some m => some m
    | none => reSearchTicket rest

/-- The search as written in `ClassifierAgent.process` (line 45):
`re.search(pattern, user_input.upper())`, returning `group(0)` when truthy. -/
def classifierTicketSearch (user_input : String) : Option String :=
  (reSearchTicket (pyUpper user_input).data).map fun m => ⟨m⟩

/-- The search as written in `QueryHandlerAgent.process` (line 134): the same
expression, duplicated verbatim in the source. -/
def queryTicketSearch (user_input : String) : Option String :=
  (reSearchTicket (pyUpper user_input).data).map fun m => ⟨m⟩

/-! ### The completion call (`BaseAgent.call_llm`)

The OpenAI round trip is the only external effect; its outcome is an oracle
parameter.  On success the content is stripped and returned with the measured
milliseconds; on any exception the handler returns the pair
`("Error: " + str(e), elapsed)` instead of raising. -/

inductive LLMOutcome where
  | ok (content : String) (ms : Nat)
  | err (msg : String) (ms : Nat)

def call_llm : LLMOutcome → String × Nat
  | .ok content ms => (pyStrip content, ms)
  | .err msg ms => ("Error: " ++ msg, ms)

/-! ### ClassifierAgent -/

/-- The dict returned by `ClassifierAgent.process`; the float confidences
0.95 and 0.8 are exact rational constants (no arithmetic touches them). -/
structure ClassificationResult where
  success : Bool
  classification : String
  confidence : ℚ
  method : String
  processing_time_ms : Nat

/-- Embeds ClassifierAgent.process: the rule-based ticket check wins outright;
otherwise the completion text is lowered, stripped and accepted only if it
equals one of the three labels, else forced to `unknown`. -/
def ClassifierAgent.process (user_input : String) (llm : LLMOutcome) :
    ClassificationResult :=
  match classifierTicketSearch user_input with
  | some _ => ⟨true, "query", 95/100, "rule_based", 5⟩
  | none =>
    let r := call_llm llm
    let c0 := pyStrip (pyLower r.1)
    let c :=
      if c0 = "positive_feedback" ∨ c0 = "negative_feedback" ∨ c0 = "query"
      then c0 else "unknown"
    ⟨c != "unknown", c, 8/10, "llm_based", r.2⟩

/-! ### BMCDatabase (`database/bmc_database.py`)

The sqlite store is embedded as two lists in insertion order.  Ticket rows
carry the columns the code reads; `resolution` is `Option String` because the
column is nullable (`create_ticket` inserts no resolution, leaving SQL NULL,
which sqlite hands back to Python as `None`).  String comparison in
a WHERE clause on the ticket number is the sqlite default BINARY collation:
exact,
case-sensitive equality. -/

structure Ticket where
  number : String
  type : String
  title : String
  description : String
  status : String
  priority : String
  customer : String
  resolution : Option String
deriving DecidableEq

structure LogEntry where
  user_message : String
  classification : String
  agent_used : String
  response : String
  ticket_number : Option String
  success : Bool
deriving DecidableEq

structure BMCDatabase where
  tickets : List Ticket
  logs : List LogEntry
deriving DecidableEq

/-- Embeds BMCDatabase.create_ticket.  The fresh number produced by
`generate_ticket_number` (a random draw retried until unused) and the sqlite
INSERT outcome are oracle parameters: on an insert exception the `except`
branch returns Python `None` (here `Option.none`) and the store is unchanged
(the commit is never reached).  The row takes the schema defaults
status New and a NULL resolution. -/
def BMCDatabase.create_ticket (db : BMCDatabase) (gen_number : String)
    (insert_ok : Bool) (ticket_type title description customer_name priority : String) :
    Option String × BMCDatabase :=
  if insert_ok then
    (some gen_number,
     { db with
        tickets := db.tickets ++
          [{ number := gen_number, type := ticket_type, title := title,
             description := description, status := "New", priority := priority,
             customer := customer_name, resolution := none }] })
  else (none, db)

/-- Embeds BMCDatabase.get_ticket: SELECT from tickets by ticket number
with `fetchone` — the first row whose number is exactly equal. -/
def BMCDatabase.get_ticket (db : BMCDatabase) (ticket_number : String) : Option Ticket :=
  db.tickets.find? fun t => t.number == ticket_number

/-- Embeds BMCDatabase.log_interaction: append one row to ai_logs.  Per the
store contract the append never fails its caller (the `except` branch only
prints), so the model appends unconditionally. -/
def BMCDatabase.log_interaction (db : BMCDatabase)
    (user_msg classification agent response : String)
    (ticket_num : Option String) (success : Bool) : BMCDatabase :=
  { db with
     logs := db.logs ++
       [{ user_message := user_msg, classification := classification,
          agent_used := agent, response := response,
          ticket_number := ticket_num, success := success }] }

/-! ### FeedbackHandlerAgent and QueryHandlerAgent -/

/-- The handler result dicts have varying key sets, so optional keys are
`Option` fields (`ticket_number` holds an optional key whose value is itself
a nullable string: `_handle_negative` stores whatever `create_ticket`
returned, possibly `None`). -/
structure HandlerResult where
  success : Bool
  response : String
  action : Option String
  ticket_number : Option (Option String)
  ticket_details : Option Ticket
  processing_time_ms : Option Nat
deriving DecidableEq

/-- Embeds FeedbackHandlerAgent handle positive: ask the completion service for a
thank-you text (the customer name only parameterises the prompt), log it, and
answer with action `thanked_customer`. -/
def FeedbackHandlerAgent.handle_positive (db : BMCDatabase)
    (user_input customer_name : String) (llm : LLMOutcome) :
    HandlerResult × BMCDatabase :=
  let r := call_llm llm
  let db1 := db.log_interaction user_input "positive_feedback" "FeedbackHandler" r.1 none true
  (⟨true, r.1, some "thanked_customer", none, none, some r.2⟩, db1)

/-- Embeds FeedbackHandlerAgent handle negative: create an INC ticket, build the
apology f-string around whatever `create_ticket` returned (Python renders a
null ticket number as the text `None`), log with the ticket reference, and
answer success/`incident_created` unconditionally. -/
def FeedbackHandlerAgent.handle_negative (db : BMCDatabase)
    (user_input customer_name : String) (gen_number : String) (insert_ok : Bool) :
    HandlerResult × BMCDatabase :=
  let cr := db.create_ticket gen_number insert_ok "INC" "Customer Complaint"
      user_input customer_name "High"
  let ticket_number := cr.1
  let response :=
    "We sincerely apologize for the inconvenience, " ++ customer_name ++
    ". A new incident " ++ pyStrOf ticket_number ++
    " has been created and our team will address this issue promptly."
  let db2 := cr.2.log_interaction user_input "negative_feedback" "FeedbackHandler"
      response ticket_number true
  (⟨true, response, some "incident_created", some ticket_number, none, some 100⟩, db2)

/-- Embeds FeedbackHandlerAgent.process: dispatch on the label; anything other
than the two feedback labels falls through to the fixed invalid-input dict. -/
def FeedbackHandlerAgent.process (db : BMCDatabase)
    (user_input classification customer_name : String)
    (llm : LLMOutcome) (gen_number : String) (insert_ok : Bool) :
    HandlerResult × BMCDatabase :=
  if classification = "positive_feedback" then
    FeedbackHandlerAgent.handle_positive db user_input customer_name llm
  else if classification = "negative_feedback" then
    FeedbackHandlerAgent.handle_negative db user_input customer_name gen_number insert_ok
  else
    (⟨false, "Invalid classification", none, none, none, none⟩, db)

/-- The type_names lookup with its dict.get default of Ticket. -/
def type_names (ticket_type : String) : String :=
  if ticket_type = "INC" then "Incident"
  else if ticket_type = "REQ" then "Service Request"
  else if ticket_type = "CRQ" then "Change Request"
  else if ticket_type = "PBI" then "Problem"
  else if ticket_type = "RLM" then "Release"
  else "Ticket"

/-- Embeds QueryHandlerAgent generate status response.  In the Resolved branch the
source reads the resolution key via dict.get with default text, but the dict built
by `get_ticket` always carries the `resolution` key (its value is the column,
possibly `None`), so `dict.get` returns that stored value — the default string
is only reachable for a key-less dict, which no caller ever builds — and the
f-string renders a null resolution as the text `None`. -/
def QueryHandlerAgent.generate_status_response (ticket : Ticket) : String :=
  let type_name := type_names ticket.type
  let number := ticket.number
  let title := ticket.title
  if ticket.status = "New" then
    "Your " ++ type_name ++ " " ++ number ++ " \x27" ++ title ++
      "\x27 has been logged and is awaiting assignment."
  else if ticket.status = "In Progress" then
    "Your " ++ type_name ++ " " ++ number ++ " \x27" ++ title ++
      "\x27 is currently being worked on by our team."
  else if ticket.status = "Resolved" then
    "Your " ++ type_name ++ " " ++ number ++ " \x27" ++ title ++
      "\x27 has been resolved. " ++ pyStrOf ticket.resolution
  else if ticket.status = "Closed" then
    "Your " ++ type_name ++ " " ++ number ++ " \x27" ++ title ++
      "\x27 has been closed."
  else
    "Your " ++ type_name ++ " " ++ number ++ " is currently \x27" ++
      ticket.status ++ "\x27."

/-- Embeds QueryHandlerAgent.process: extract the ticket reference from the
upper-cased text, look it up with exact-match `get_ticket`, and reply per the
status table, logging in the found and not-found branches. -/
def QueryHandlerAgent.process (db : BMCDatabase) (user_input : String) :
    HandlerResult × BMCDatabase :=
  match queryTicketSearch user_input with
  | none =>
    (⟨false, "Please provide a valid ticket number (INC/REQ/CRQ/PBI/RLM + 10 digits)",
      none, none, none, some 5⟩, db)
  | some ticket_number =>
    match db.get_ticket ticket_number with
    | none =>
      let response := "Ticket " ++ ticket_number ++ " not found. Please verify the number."
      let db1 := db.log_interaction user_input "query" "QueryHandler" response
          (some ticket_number) false
      (⟨false, response, none, some (some ticket_number), none, some 50⟩, db1)
    | some ticket_details =>
      let response := QueryHandlerAgent.generate_status_response ticket_details
      let db1 := db.log_interaction user_input "query" "QueryHandler" response
          (some ticket_number) true
      (⟨true, response, none, some (some ticket_number), some ticket_details, some 75⟩, db1)

/-! ### ModelEvaluator (`evaluation/model_evaluator.py`)

The evaluator reads the `ai_logs` table directly.  sqlite prepares each
statement before touching any row, so a SELECT naming a column that is not in
the table schema raises `OperationalError: no such column` regardless of the
content of the table; that preparation step is embedded in `sqliteSelect`. -/

def ai_logs_columns : List String :=
  ["id", "user_message", "classification", "agent_used", "response",
   "ticket_number", "success", "timestamp"]

def sqliteSelect {α : Type} (cols : List String) (rows : α) : Except String α :=
  match cols.find? (fun c => !(ai_logs_columns.contains c)) with
  | some c => .error ("no such column: " ++ c)
  | none => .ok rows

/-- Python-dict accumulation keyed by `k`, preserving insertion order:
the pair counts `{total, successful}`. -/
def bumpPair {κ : Type} [BEq κ] (m : List (κ × Nat × Nat)) (k : κ) (succ : Bool) :
    List (κ × Nat × Nat) :=
  match m with
  | [] => [(k, 1, if succ then 1 else 0)]
  | (k0, t, s) :: rest =>
    if k0 == k then (k0, t + 1, if succ then s + 1 else s) :: rest
    else (k0, t, s) :: bumpPair rest k succ

/-- Insertion-ordered counter dict. -/
def incCount (m : List (String × Nat)) (k : String) : List (String × Nat) :=
  match m with
  | [] => [(k, 1)]
  | (k0, v) :: rest =>
    if k0 == k then (k0, v + 1) :: rest else (k0, v) :: incCount rest k

def empathy_keywords : List String :=
  ["apologize", "sorry", "thank", "appreciate", "understand", "delighted"]

def clarity_indicators : List String :=
  ["ticket", "status", "resolved", "created", "team"]

structure QualityScores where
  empathy_score : ℚ
  clarity_score : ℚ
  completeness_score : ℚ
deriving DecidableEq

/-- Per-row heuristic scores from `evaluate_response_quality`. -/
def rowScores (response : String) : QualityScores :=
  let low := pyLower response
  { empathy_score := (empathy_keywords.countP fun w => hasSubstr w.data low.data : Nat),
    clarity_score := min ((wordCount response : ℚ) / 20) 1,
    completeness_score :=
      if clarity_indicators.any fun w => hasSubstr w.data low.data then 1 else 1/2 }

inductive ResponseQualityReport where
  | noData (message : String)
  | report (total_interactions : Nat) (success_rate : ℚ) (scores : QualityScores)
      (agent_performance : List (String × ℚ × Nat))
      (classification_distribution : List (String × Nat))
deriving DecidableEq

/-- Embeds ModelEvaluator.evaluate_response_quality.  Its SELECT names the column
`response_generated`, which the `ai_logs` schema does not have (the column is
`response`), so the prepared statement fails before the empty-log guard is
ever reached.  The `.ok` continuation embeds the rest of the body: the
no-data guard, the success rate over the 50 most recent rows, the three
averaged heuristic scores over successful rows with non-empty replies, and
the per-agent / per-label tabulations. -/
def ModelEvaluator.evaluate_response_quality (logs : List LogEntry) :
    Except String ResponseQualityReport :=
  match sqliteSelect
      ["user_message", "classification", "response_generated", "success", "agent_used"]
      (logs.reverse.take 50) with
  | .error e => .error e
  | .ok interactions =>
    if interactions.isEmpty then .ok (.noData "No interactions found for evaluation")
    else
      let successful := interactions.countP fun i => i.success
      let agent_stats := interactions.foldl (fun m i => bumpPair m i.agent_used i.success) []
      let class_stats := interactions.foldl (fun m i => incCount m i.classification) []
      let total := interactions.foldl
        (fun (acc : QualityScores) i =>
          if i.success && !i.response.isEmpty then
            let s := rowScores i.response
            ⟨acc.empathy_score + s.empathy_score, acc.clarity_score + s.clarity_score,
             acc.completeness_score + s.completeness_score⟩
          else acc)
        ⟨0, 0, 0⟩
      let scores :=
        if 0 < successful then
          (⟨total.empathy_score / successful, total.clarity_score / successful,
            total.completeness_score / successful⟩ : QualityScores)
        else total
      .ok (.report interactions.length ((successful : ℚ) / interactions.length * 100)
        scores
        (agent_stats.map fun p => (p.1, (p.2.2 : ℚ) / p.2.1 * 100, p.2.1))
        class_stats)

/-- The fixed expected label-to-handler mapping. -/
def expected_routing (classification : String) : Option String :=
  if classification = "positive_feedback" then some "FeedbackHandler"
  else if classification = "negative_feedback" then some "FeedbackHandler"
  else if classification = "query" then some "QueryHandler"
  else none

inductive RoutingReport where
  | noData (message : String)
  | report (total_routings correct_routings : Nat) (routing_accuracy : ℚ)
      (routing_matrix : List ((String × String) × Nat × Nat))
deriving DecidableEq

/-- Embeds ModelEvaluator.evaluate_agent_routing_success.  Every row written by
`log_interaction` carries a non-null classification and handler, so the
SQL `WHERE ... IS NOT NULL` filter keeps all rows of the embedded log.
Correctness of a routing is substring containment of the expected handler
name in the observed one. -/
def ModelEvaluator.evaluate_agent_routing_success (logs : List LogEntry) :
    Except String RoutingReport :=
  match sqliteSelect ["classification", "agent_used", "success"] logs with
  | .error e => .error e
  | .ok routing_data =>
    if routing_data.isEmpty then .ok (.noData "No routing data available")
    else
      let matrix := routing_data.foldl
        (fun m i => bumpPair m (i.classification, i.agent_used) i.success) []
      let correct := routing_data.countP fun i =>
        match expected_routing i.classification with
        | some expected => hasSubstr expected.data i.agent_used.data
        | none => false
      .ok (.report routing_data.length correct
        ((correct : ℚ) / routing_data.length * 100) matrix)

structure ClassifierTestCase where
  message : String
  expected : String
  category : String
deriving DecidableEq

/-- The fixed labeled corpus installed by `ModelEvaluator.__init__`. -/
def default_test_cases : List ClassifierTestCase :=
  [⟨"Thank you for solving my issue!", "positive_feedback", "gratitude"⟩,
   ⟨"Great service from your team!", "positive_feedback", "praise"⟩,
   ⟨"My card is still not working", "negative_feedback", "complaint"⟩,
   ⟨"Very disappointed with the delay", "negative_feedback", "dissatisfaction"⟩,
   ⟨"What\x27s the status of INC1234567890?", "query", "status_inquiry"⟩,
   ⟨"Can you check ticket REQ0987654321?", "query", "ticket_lookup"⟩,
   ⟨"Please help me with my account", "query", "help_request"⟩,
   ⟨"Thanks for the quick resolution!", "positive_feedback", "appreciation"⟩,
   ⟨"This is taking too long", "negative_feedback", "frustration"⟩,
   ⟨"Status of PBI5555555555?", "query", "problem_inquiry"⟩]

structure CaseRecord where
  message : String
  expected : String
  actual : String
  correct : Bool
  category : String
  confidence : ℚ
deriving DecidableEq

structure AccuracyReport where
  total_tests : Nat
  correct_classifications : Nat
  accuracy_percentage : ℚ
  detailed_results : List CaseRecord
  category_performance : List (String × ℚ × Nat × Nat)
deriving DecidableEq

/-- Embeds ModelEvaluator.evaluate_classification_accuracy: replay the corpus
through the live classifier (`classify` closes over the completion oracle of the classifier
completion oracle).  The accuracy line divides by `total_tests` with no
empty-corpus guard, which in Python raises `ZeroDivisionError` when the
corpus is empty; that raise is embedded as the `Except.error`. -/
def ModelEvaluator.evaluate_classification_accuracy
    (test_cases : List ClassifierTestCase) (classify : String → ClassificationResult) :
    Except String AccuracyReport :=
  let recs := test_cases.map fun tc =>
    let r := classify tc.message
    ({ message := tc.message, expected := tc.expected, actual := r.classification,
       correct := r.classification == tc.expected, category := tc.category,
       confidence := r.confidence } : CaseRecord)
  let correct := recs.countP fun c => c.correct
  if test_cases.length = 0 then .error "ZeroDivisionError: division by zero"
  else
    let cat_stats := recs.foldl (fun m c => bumpPair m c.category c.correct) []
    .ok { total_tests := test_cases.length, correct_classifications := correct,
          accuracy_percentage := (correct : ℚ) / test_cases.length * 100,
          detailed_results := recs,
          category_performance := cat_stats.map fun p => (p.1, (p.2.2 : ℚ) / p.2.1 * 100, p.2.2, p.2.1) }

/-! ### Helper lemmas -/

lemma ticketMatchAt_nil : ticketMatchAt [] = none := by decide

lemma reSearchTicket_of_matchAt {l : List Char} {i : Nat} {m : List Char}
    (h : ticketMatchAt (l.drop i) = some m) : ∃ m0, reSearchTicket l = some m0 := by
  induction l generalizing i with
  | nil =>
    rw [List.drop_nil, ticketMatchAt_nil] at h
    exact absurd h (by simp)
  | cons c rest ih =>
    cases i with
    | zero =>
      rw [List.drop_zero] at h
      exact ⟨m, by rw [reSearchTicket, h]⟩
    | succ j =>
      rw [List.drop_succ_cons] at h
      obtain ⟨m0, hm0⟩ := ih h
      cases hc : ticketMatchAt (c :: rest) with
      | some m1 => exact ⟨m1, by rw [reSearchTicket, hc]⟩
      | none => exact ⟨m0, by rw [reSearchTicket, hc, hm0]⟩

lemma reSearchTicket_matchAt {l m : List Char} (h : reSearchTicket l = some m) :
    ∃ i, ticketMatchAt (l.drop i) = some m := by
  induction l with
  | nil => rw [reSearchTicket] at h; exact absurd h (by simp)
  | cons c rest ih =>
    rw [reSearchTicket] at h
    cases hc : ticketMatchAt (c :: rest) with
    | some m1 =>
      rw [hc] at h
      simp only [Option.some.injEq] at h
      exact ⟨0, by rw [List.drop_zero, hc, h]⟩
    | none =>
      rw [hc] at h
      simp only at h
      obtain ⟨i, hi⟩ := ih h
      exact ⟨i + 1, by rwa [List.drop_succ_cons]⟩

lemma pyUpperChar_of_digit {c : Char} (h : isDigitChar c = true) : pyUpperChar c = c := by
  simp only [isDigitChar, Bool.and_eq_true, decide_eq_true_eq] at h
  unfold pyUpperChar
  rw [if_neg]
  rintro ⟨ha, -⟩
  exact absurd (le_trans ha h.2) (by decide)

lemma map_pyUpperChar_of_digits {l : List Char} (h : l.all isDigitChar = true) :
    l.map pyUpperChar = l := by
  induction l with
  | nil => rfl
  | cons c rest ih =>
    rw [List.all_cons, Bool.and_eq_true] at h
    rw [List.map_cons, pyUpperChar_of_digit h.1, ih h.2]

/-- A string matched by the ticket pattern is fixed by upper-casing: its
first three characters are one of the five capital type codes and the other
ten are digits. -/
lemma ticketMatchAt_upper_fixed {s m : List Char} (h : ticketMatchAt s = some m) :
    m.map pyUpperChar = m := by
  unfold ticketMatchAt at h
  split at h
  case isFalse => exact absurd h (by simp)
  case isTrue hcond =>
    obtain ⟨hm⟩ := h
    rw [Bool.and_eq_true, Bool.and_eq_true] at hcond
    obtain ⟨⟨hpre, -⟩, hdig⟩ := hcond
    have h13 : s.take 13 = s.take 3 ++ (s.drop 3).take 10 := List.take_add s 3 10
    rw [h13, List.map_append, map_pyUpperChar_of_digits hdig]
    have hmem : s.take 3 ∈ ticketTypeCodes := by simpa using hpre
    simp only [ticketTypeCodes, List.mem_cons, List.not_mem_nil, or_false] at hmem
    rcases hmem with hp | hp | hp | hp | hp <;> rw [hp] <;> rfl

lemma dropTrailing_cons_head {c : Char} (hc : isSpaceChar c = false) (l : List Char) :
    ∃ t, dropTrailing (c :: l) = c :: t := by
  rw [dropTrailing]
  cases hr : (dropTrailing l).isEmpty with
  | true => exact ⟨[], by simp [hr, hc]⟩
  | false => exact ⟨dropTrailing l, by simp [hr]⟩

/-- The stripped, lowered rendering of a failed completion call starts with
the letter e, hence never equals one of the three accepted labels. -/
lemma stripLowerError_head (msg : String) :
    ∃ t, (pyStrip (pyLower ("Error: " ++ msg))).data = 'e' :: t := by
  have hdata : (pyLower ("Error: " ++ msg)).data =
      'e' :: 'r' :: 'r' :: 'o' :: 'r' :: ':' :: ' ' :: (pyLower msg).data := by
    show (("Error: " ++ msg).data.map pyLowerChar) = _
    rw [String.data_append, List.map_append]
    rfl
  show ∃ t, dropTrailing ((pyLower ("Error: " ++ msg)).data.dropWhile isSpaceChar) = 'e' :: t
  rw [hdata, List.dropWhile_cons_of_neg (by decide)]
  exact dropTrailing_cons_head (by decide) _

lemma stripLowerError_not_label (msg : String) (lab : String)
    (hlab : lab.data.head? ≠ some 'e') :
    pyStrip (pyLower ("Error: " ++ msg)) ≠ lab := by
  obtain ⟨t, ht⟩ := stripLowerError_head msg
  intro heq
  rw [heq] at ht
  exact hlab (by rw [ht]; rfl)

/-! ### Theorems about the claims -/

/-- C1 (counterexample): the claim says the rule-based branch fires only for a
type code followed by exactly ten digits, not eleven or more.  The input
below has INC followed by eleven digits, yet the classifier still answers
with the rule-based query result (the regex is unanchored after `\d{10}`),
even when the completion oracle would have said something else. -/
theorem classifier_rule_eleven_digits_still_fires :
    ClassifierAgent.process "Ref INC12345678901 end" (.ok "negative_feedback" 7)
      = ⟨true, "query", 95/100, "rule_based", 5⟩ := rfl

/-- C1 (amended): whenever the upper-cased text contains, at any position, a
type code from {INC, REQ, CRQ, PBI, RLM} followed immediately by at least ten
digits (i.e. the unanchored pattern matches), `ClassifierAgent.process`
returns the fixed rule-based result — label `query`, confidence 0.95, method
`rule_based`, success true — for every completion oracle, so the
CompletionService is never consulted.  The restriction to exactly ten digits
does not hold. -/
theorem classifier_rule_fires_on_ticket_substring (user_input : String) (llm : LLMOutcome)
    (h : ∃ i m, ticketMatchAt ((pyUpper user_input).data.drop i) = some m) :
    ClassifierAgent.process user_input llm = ⟨true, "query", 95/100, "rule_based", 5⟩ := by
  obtain ⟨i, m, hm⟩ := h
  obtain ⟨m0, hm0⟩ := reSearchTicket_of_matchAt hm
  unfold ClassifierAgent.process classifierTicketSearch
  rw [hm0]
  rfl

/-- C1 (witness): the amended theorem applied at a concrete ticket-bearing
input, the pattern hypothesis discharged by evaluation. -/
theorem classifier_rule_fires_witness :
    ClassifierAgent.process "Check INC1234567890 now" (.err "service down" 3)
      = ⟨true, "query", 95/100, "rule_based", 5⟩ :=
  classifier_rule_fires_on_ticket_substring "Check INC1234567890 now" (.err "service down" 3)
    ⟨6, "INC1234567890".data, by decide⟩

/-- C2 (counterexample): the claim says a failed completion call surfaces the
failure description as the classification text of the result.  It does not:
the classification is the literal `unknown`, and two failures with different
descriptions produce identical results — the description is discarded. -/
theorem classifier_llm_failure_discards_error_text :
    (ClassifierAgent.process "hello" (.err "Connection timeout" 42)).classification
        = "unknown" ∧
    ClassifierAgent.process "hello" (.err "Connection timeout" 42)
        = ClassifierAgent.process "hello" (.err "invalid api key" 42) := by
  exact ⟨rfl, rfl⟩

/-- C2 (amended): for every input without a ticket-pattern match, when the
completion call fails the classifier does not raise: it returns label
`unknown`, success false, method `llm_based`, with the elapsed time measured
by `call_llm` from call start to failure; the failure description itself is
normalized away and appears nowhere in the result. -/
theorem classifier_llm_failure_returns_unknown (user_input msg : String) (ms : Nat)
    (h : classifierTicketSearch user_input = none) :
    ClassifierAgent.process user_input (.err msg ms)
      = ⟨false, "unknown", 8/10, "llm_based", ms⟩ := by
  unfold ClassifierAgent.process
  rw [h]
  show (⟨_, _, _, _, _⟩ : ClassificationResult) = _
  rw [if_neg]
  · rfl
  · push_neg
    refine ⟨?_, ?_, ?_⟩ <;>
      exact stripLowerError_not_label msg _ (by decide)

/-- C2 (witness): the amended theorem applied at a concrete non-ticket input
and failure, the no-match hypothesis discharged by evaluation. -/
theorem classifier_llm_failure_witness :
    ClassifierAgent.process "hello there" (.err "boom" 42)
      = ⟨false, "unknown", 8/10, "llm_based", 42⟩ :=
  classifier_llm_failure_returns_unknown "hello there" "boom" 42 (by decide)

/-- C8: every result the classifier produces satisfies the invariant that
`success` holds exactly when the label is not `unknown`, and its label lies
in {positive_feedback, negative_feedback, query, unknown} (for every input,
matching the ticket pattern or not, and every completion oracle). -/
theorem classifier_label_set_and_success_invariant (user_input : String) (llm : LLMOutcome) :
    ((ClassifierAgent.process user_input llm).success = true ↔
        (ClassifierAgent.process user_input llm).classification ≠ "unknown") ∧
    (ClassifierAgent.process user_input llm).classification ∈
      ["positive_feedback", "negative_feedback", "query", "unknown"] := by
  unfold ClassifierAgent.process
  split
  · exact ⟨by simp, by simp⟩
  · dsimp only
    set c0 := pyStrip (pyLower (call_llm llm).1) with hc0
    by_cases hp : c0 = "positive_feedback" ∨ c0 = "negative_feedback" ∨ c0 = "query"
    · rw [if_pos hp]
      refine ⟨bne_iff_ne, ?_⟩
      rcases hp with h | h | h <;> rw [h] <;> simp
    · rw [if_neg hp]
      exact ⟨by simp, by simp⟩

/-- C3: empty-data behaviour of the three measurement functions.
`evaluate_agent_routing_success` does return its explicit no-data indicator on
an empty log.  But `evaluate_response_quality` never reaches its no-data
guard: its SELECT names the column `response_generated`, which the `ai_logs`
schema does not contain, so sqlite raises OperationalError on an empty log —
and on any log at all.  `evaluate_classification_accuracy` divides by the
corpus size with no guard, raising ZeroDivisionError on an empty corpus. -/
theorem evaluator_empty_data_behaviour :
    ModelEvaluator.evaluate_response_quality []
        = .error "no such column: response_generated" ∧
    ModelEvaluator.evaluate_response_quality
        [⟨"Status of INC1234567890?", "query", "QueryHandler", "reply", some "INC1234567890", true⟩]
        = .error "no such column: response_generated" ∧
    ModelEvaluator.evaluate_agent_routing_success []
        = .ok (.noData "No routing data available") ∧
    ModelEvaluator.evaluate_classification_accuracy []
        (fun m => ClassifierAgent.process m (.err "service down" 0))
        = .error "ZeroDivisionError: division by zero" := by
  refine ⟨rfl, rfl, rfl, rfl⟩

/-- C4: when ticket creation fails (the store returns a null ticket number),
the negative-feedback path does not treat it as fatal: it still answers
success true with action `incident_created`, and the apology reply embeds the
null ticket number as the literal text `None`, claiming an incident was
created. -/
theorem negative_feedback_null_ticket_embeds_none :
    (FeedbackHandlerAgent.handle_negative ⟨[], []⟩
        "My card is broken" "Jane Doe" "INC0000000000" false).1.success = true ∧
    (FeedbackHandlerAgent.handle_negative ⟨[], []⟩
        "My card is broken" "Jane Doe" "INC0000000000" false).1.action
        = some "incident_created" ∧
    (FeedbackHandlerAgent.handle_negative ⟨[], []⟩
        "My card is broken" "Jane Doe" "INC0000000000" false).1.ticket_number
        = some none ∧
    (FeedbackHandlerAgent.handle_negative ⟨[], []⟩
        "My card is broken" "Jane Doe" "INC0000000000" false).1.response
        = "We sincerely apologize for the inconvenience, Jane Doe. A new incident None has been created and our team will address this issue promptly." ∧
    (FeedbackHandlerAgent.handle_negative ⟨[], []⟩
        "My card is broken" "Jane Doe" "INC0000000000" false).2.tickets = [] := by
  refine ⟨rfl, rfl, rfl, rfl, rfl⟩

/-- C7: on the negative-feedback path with a successful insert, for every
store, text, customer name, completion oracle and generated number, exactly
one ticket is appended — type INC, title Customer Complaint, the text as
description, the given customer, priority High (status New, null resolution
per the schema defaults) — the deterministic apology embeds the name and the
new number, one log entry referencing the ticket is appended, and the result
is success true with action `incident_created`.  The completion oracle is
universally quantified and absent from the right-hand side: no model call is
made. -/
theorem negative_feedback_success_path (db : BMCDatabase)
    (user_input customer_name : String) (llm : LLMOutcome) (gen_number : String) :
    FeedbackHandlerAgent.process db user_input "negative_feedback" customer_name
        llm gen_number true =
      (⟨true,
        "We sincerely apologize for the inconvenience, " ++ customer_name ++
          ". A new incident " ++ gen_number ++
          " has been created and our team will address this issue promptly.",
        some "incident_created", some (some gen_number), none, some 100⟩,
       ⟨db.tickets ++
          [⟨gen_number, "INC", "Customer Complaint", user_input, "New", "High",
            customer_name, none⟩],
        db.logs ++
          [⟨user_input, "negative_feedback", "FeedbackHandler",
            "We sincerely apologize for the inconvenience, " ++ customer_name ++
              ". A new incident " ++ gen_number ++
              " has been created and our team will address this issue promptly.",
            some gen_number, true⟩]⟩) := rfl

/-- C9: for every label other than the two feedback labels,
`FeedbackHandlerAgent.process` answers the fixed invalid-input dict with
success false, and returns the store unchanged — no ticket created, no log
entry appended; the completion and number oracles are quantified and absent
from the result, so no completion call is made. -/
theorem feedback_invalid_label_no_side_effects (db : BMCDatabase)
    (user_input classification customer_name : String)
    (llm : LLMOutcome) (gen_number : String) (insert_ok : Bool)
    (h1 : classification ≠ "positive_feedback")
    (h2 : classification ≠ "negative_feedback") :
    FeedbackHandlerAgent.process db user_input classification customer_name
        llm gen_number insert_ok =
      (⟨false, "Invalid classification", none, none, none, none⟩, db) := by
  rw [FeedbackHandlerAgent.process, if_neg h1, if_neg h2]

/-- C9 (witness): the theorem applied at the label `query` and a concrete
store, the two disequality hypotheses discharged by evaluation. -/
theorem feedback_invalid_label_witness :
    FeedbackHandlerAgent.process ⟨[], []⟩ "What is the status?" "query" "Mike"
        (.ok "text" 10) "INC7777777777" true =
      (⟨false, "Invalid classification", none, none, none, none⟩, ⟨[], []⟩) :=
  feedback_invalid_label_no_side_effects ⟨[], []⟩ "What is the status?" "query" "Mike"
    (.ok "text" 10) "INC7777777777" true (by decide) (by decide)

/-- C5 (counterexample): two discrepancies.  First, on the Scenario C input
and store the reply ends with the resolution appended verbatim — `...Card
unblocked after verification` with no trailing period — not the claimed
`...verification.`.  Second, a Resolved ticket whose resolution is absent
does not get a default phrase: the record handed over by `get_ticket` always
carries the resolution key (here a SQL NULL), so the dict.get
default is bypassed and the reply renders the null as the literal text
`None` instead of `Issue resolved.`. -/
theorem resolved_null_resolution_renders_none :
    (QueryHandlerAgent.process
        ⟨[⟨"INC1234567890", "INC", "Credit Card Blocked",
           "Card blocked after suspicious activity", "Resolved", "High", "John Smith",
           some "Card unblocked after verification"⟩], []⟩
        "What\x27s the status of INC1234567890?").1.response
      = "Your Incident INC1234567890 \x27Credit Card Blocked\x27 has been resolved. Card unblocked after verification" ∧
    ("Your Incident INC1234567890 \x27Credit Card Blocked\x27 has been resolved. Card unblocked after verification" : String)
      ≠ "Your Incident INC1234567890 \x27Credit Card Blocked\x27 has been resolved. Card unblocked after verification." ∧
    QueryHandlerAgent.generate_status_response
        ⟨"INC1111111111", "INC", "ATM issue", "desc", "Resolved", "High", "X", none⟩
      = "Your Incident INC1111111111 \x27ATM issue\x27 has been resolved. None" ∧
    ("Your Incident INC1111111111 \x27ATM issue\x27 has been resolved. None" : String)
      ≠ "Your Incident INC1111111111 \x27ATM issue\x27 has been resolved. Issue resolved." := by
  exact ⟨by decide, by decide, rfl, by decide⟩

/-- C5 (amended): the status reply is produced by the deterministic
status-to-phrasing table with the type display names
INC→Incident, REQ→Service Request, CRQ→Change Request, PBI→Problem,
RLM→Release, otherwise Ticket; for a Resolved ticket the reply appends the
stored resolution text verbatim (no added punctuation), or the literal
`None` when the stored resolution is null (never the `Issue resolved.`
default); and Scenario C yields exactly
the reply text ending in the resolution without a trailing period, with
success true. -/
theorem query_status_reply_table :
    (∀ t : Ticket, t.status = "Resolved" →
      QueryHandlerAgent.generate_status_response t =
        "Your " ++ type_names t.type ++ " " ++ t.number ++ " \x27" ++ t.title ++
          "\x27 has been resolved. " ++ pyStrOf t.resolution) ∧
    (∀ t : Ticket, t.status = "New" →
      QueryHandlerAgent.generate_status_response t =
        "Your " ++ type_names t.type ++ " " ++ t.number ++ " \x27" ++ t.title ++
          "\x27 has been logged and is awaiting assignment.") ∧
    (∀ t : Ticket, t.status = "In Progress" →
      QueryHandlerAgent.generate_status_response t =
        "Your " ++ type_names t.type ++ " " ++ t.number ++ " \x27" ++ t.title ++
          "\x27 is currently being worked on by our team.") ∧
    (∀ t : Ticket, t.status = "Closed" →
      QueryHandlerAgent.generate_status_response t =
        "Your " ++ type_names t.type ++ " " ++ t.number ++ " \x27" ++ t.title ++
          "\x27 has been closed.") ∧
    type_names "INC" = "Incident" ∧ type_names "REQ" = "Service Request" ∧
    type_names "CRQ" = "Change Request" ∧ type_names "PBI" = "Problem" ∧
    type_names "RLM" = "Release" ∧ type_names "XYZ" = "Ticket" ∧
    ((QueryHandlerAgent.process
        ⟨[⟨"INC1234567890", "INC", "Credit Card Blocked",
           "Card blocked after suspicious activity", "Resolved", "High", "John Smith",
           some "Card unblocked after verification"⟩], []⟩
        "What\x27s the status of INC1234567890?").1.response
      = "Your Incident INC1234567890 \x27Credit Card Blocked\x27 has been resolved. Card unblocked after verification" ∧
     (QueryHandlerAgent.process
        ⟨[⟨"INC1234567890", "INC", "Credit Card Blocked",
           "Card blocked after suspicious activity", "Resolved", "High", "John Smith",
           some "Card unblocked after verification"⟩], []⟩
        "What\x27s the status of INC1234567890?").1.success = true) := by
  refine ⟨?_, ?_, ?_, ?_, rfl, rfl, rfl, rfl, rfl, rfl, by decide, by decide⟩ <;>
    intro t h <;> simp [QueryHandlerAgent.generate_status_response, h]

/-- C5 (witness): the table part of the theorem applied at a concrete
Resolved ticket with a present resolution, the status hypothesis discharged
by rfl. -/
theorem query_status_reply_witness :
    QueryHandlerAgent.generate_status_response
        ⟨"REQ9876543210", "REQ", "New Debit Card", "d", "Resolved", "Medium", "Jane",
          some "Card issued."⟩
      = "Your Service Request REQ9876543210 \x27New Debit Card\x27 has been resolved. Card issued." :=
  query_status_reply_table.1
    ⟨"REQ9876543210", "REQ", "New Debit Card", "d", "Resolved", "Medium", "Jane",
      some "Card issued."⟩ rfl

/-- C6: the rule-based detection of the Classifier and the extraction of the QueryHandler
extraction are the same search over the same upper-cased text (the regex is
duplicated verbatim at the two call sites): whenever the text contains a
well-formed ticket reference at any position — in particular when it contains
exactly one — both searches succeed and produce the identical substring. -/
theorem classifier_query_extraction_agree (s : String)
    (h : ∃ i m, ticketMatchAt ((pyUpper s).data.drop i) = some m) :
    ∃ m, classifierTicketSearch s = some m ∧ queryTicketSearch s = some m := by
  obtain ⟨i, m0, hm⟩ := h
  obtain ⟨m1, hm1⟩ := reSearchTicket_of_matchAt hm
  exact ⟨⟨m1⟩, by simp [classifierTicketSearch, hm1], by simp [queryTicketSearch, hm1]⟩

/-- C6 (witness): the theorem applied at the Scenario D input, which contains
exactly one well-formed reference; both searches return it. -/
theorem classifier_query_extraction_agree_witness :
    classifierTicketSearch "Can you check REQ9876543210?" = some "REQ9876543210" ∧
    queryTicketSearch "Can you check REQ9876543210?" = some "REQ9876543210" := by
  obtain ⟨m, h1, h2⟩ := classifier_query_extraction_agree "Can you check REQ9876543210?"
    ⟨14, "REQ9876543210".data, by decide⟩
  have h3 : some m = some "REQ9876543210" := h1.symm.trans (by decide)
  rw [Option.some.injEq] at h3
  subst h3
  exact ⟨h1, h2⟩

lemma queryTicketSearch_upper_fixed {input m : String}
    (h : queryTicketSearch input = some m) : pyUpper m = m := by
  unfold queryTicketSearch at h
  cases hr : reSearchTicket (pyUpper input).data with
  | none => rw [hr] at h; exact absurd h (by simp)
  | some m0 =>
    rw [hr] at h
    simp only [Option.map_some', Option.some.injEq] at h
    obtain ⟨i, hi⟩ := reSearchTicket_matchAt hr
    have hfix := ticketMatchAt_upper_fixed hi
    rw [← h]
    show (⟨m0.map pyUpperChar⟩ : String) = ⟨m0⟩
    rw [hfix]

/-- C10: `QueryHandlerAgent.process` extracts from the upper-cased text, so
whenever a reference is found the extracted number is fixed by upper-casing
(`pyUpper m = m`); that number is the one returned in the result, recorded in
the appended log entry, and used for the store lookup (`ticket_details` is
exactly `get_ticket` of it); and since the lookup is exact string equality, a
ticket stored under a number that is not its own upper-case form is never
found. -/
theorem query_handler_uppercase_lookup (input : String) (db : BMCDatabase) (m : String)
    (h : queryTicketSearch input = some m) :
    pyUpper m = m ∧
    (QueryHandlerAgent.process db input).1.ticket_number = some (some m) ∧
    (QueryHandlerAgent.process db input).1.ticket_details = db.get_ticket m ∧
    (∃ resp ok, (QueryHandlerAgent.process db input).2.logs =
        db.logs ++ [⟨input, "query", "QueryHandler", resp, some m, ok⟩]) ∧
    (∀ t ∈ db.tickets, t.number ≠ pyUpper t.number → db.get_ticket m ≠ some t) := by
  have hfix := queryTicketSearch_upper_fixed h
  have hlast : ∀ t ∈ db.tickets, t.number ≠ pyUpper t.number → db.get_ticket m ≠ some t := by
    intro t ht hne hcontra
    unfold BMCDatabase.get_ticket at hcontra
    have hp := List.find?_some hcontra
    rw [beq_iff_eq] at hp
    apply hne
    rw [hp, hfix]
  refine ⟨hfix, ?_⟩
  unfold QueryHandlerAgent.process
  rw [h]
  dsimp only
  cases hg : db.get_ticket m with
  | none => exact ⟨rfl, rfl, ⟨_, false, rfl⟩, hg ▸ hlast⟩
  | some td => exact ⟨rfl, rfl, ⟨_, true, rfl⟩, hg ▸ hlast⟩

/-- C10 (witness): the theorem applied to a lower-case typed reference
against a store whose only ticket is filed under the lower-case number: the
extracted number is the upper-case form, and the lower-case record is never
found by the lookup. -/
theorem query_handler_uppercase_lookup_witness :
    pyUpper "INC1234567890" = "INC1234567890" ∧
    (QueryHandlerAgent.process
        ⟨[⟨"inc1234567890", "INC", "Test", "d", "New", "High", "X", none⟩], []⟩
        "please check inc1234567890").1.ticket_number = some (some "INC1234567890") ∧
    (⟨[⟨"inc1234567890", "INC", "Test", "d", "New", "High", "X", none⟩], []⟩ :
        BMCDatabase).get_ticket "INC1234567890"
      ≠ some ⟨"inc1234567890", "INC", "Test", "d", "New", "High", "X", none⟩ := by
  have H := query_handler_uppercase_lookup "please check inc1234567890"
      ⟨[⟨"inc1234567890", "INC", "Test", "d", "New", "High", "X", none⟩], []⟩
      "INC1234567890" (by decide)
  exact ⟨H.1, H.2.1, H.2.2.2.2 _ (by simp) (by decide)⟩

end BMC
